import Mathlib

/-!
Verification of `params.go` from estafette-extension-cloud-function.

The Go `Params` struct, its `SetDefaults` method and its
`ValidateRequiredProperties` method are embedded as pure Lean
definitions.  The Go `map[string]interface{}` field
`EnvironmentVariables` is untouched by both methods and is omitted
from the record.  Go errors are represented by their message strings,
built exactly as the `fmt.Errorf` calls build them.  The Go methods
mutate the receiver in place; here every assignment is a functional
record update, performed in source order.
-/

/-- The `Params` struct of params.go (deployment parameters).
`TimeoutSeconds` is a Go `int`, embedded as `Int` so that negative
values are representable. -/
structure Params where
  dryRun : Bool
  app : String
  runtime : String
  trigger : String
  triggerValue : String
  memory : String
  serviceAccount : String
  source : String
  ingressSettings : String
  timeoutSeconds : Int
  deriving Repr, DecidableEq

/-- First block of `SetDefaults`: "default app to estafette app label
if no override in stage params" (the two `if` statements on `p.App`). -/
def defaultApp (p : Params) (gitName appLabel : String) : Params :=
  let p := if p.app = "" ∧ appLabel = "" ∧ gitName ≠ "" then { p with app := gitName } else p
  if p.app = "" ∧ appLabel ≠ "" then { p with app := appLabel } else p

/-- Second block of `SetDefaults`: "default trigger to http-trigger". -/
def defaultTrigger (p : Params) : Params :=
  if p.trigger = "" then { p with trigger := "http" } else p

/-- Third block of `SetDefaults`: "default memory to 256MB". -/
def defaultMemory (p : Params) : Params :=
  if p.memory = "" then { p with memory := "256MB" } else p

/-- Fourth block of `SetDefaults`: "default source to current directory". -/
def defaultSource (p : Params) : Params :=
  if p.source = "" then { p with source := "." } else p

/-- Fifth block of `SetDefaults`: "default timeout to 60 seconds". -/
def defaultTimeout (p : Params) : Params :=
  if p.timeoutSeconds ≤ 0 then { p with timeoutSeconds := 60 } else p

/-- Sixth block of `SetDefaults`: "default ingress-settings to all". -/
def defaultIngress (p : Params) : Params :=
  if p.ingressSettings = "" then { p with ingressSettings := "all" } else p

/-- Method `SetDefaults` of params.go: fills in empty fields with
convention-based defaults.  The six blocks of the Go body run in
source order; `buildVersion`, `releaseName`, `releaseAction` and
`estafetteLabels` are parameters of the Go method that its body never
reads. -/
def Params.SetDefaults (p : Params)
    (gitName appLabel buildVersion releaseName releaseAction : String)
    (estafetteLabels : List (String × String)) : Params :=
  defaultIngress (defaultTimeout (defaultSource (defaultMemory
    (defaultTrigger (defaultApp p gitName appLabel)))))

/-- Function `inStringArray` from params.go. -/
def inStringArray (value : String) (array : List String) : Bool :=
  array.any (fun v => v = value)

/-- The `supportedRuntimes` list of `ValidateRequiredProperties`. -/
def supportedRuntimes : List String :=
  ["nodejs8", "nodejs10", "python37", "go111"]

/-- The `supportedMemory` list of `ValidateRequiredProperties`. -/
def supportedMemory : List String :=
  ["128MB", "256MB", "512MB", "1024MB", "2048MB"]

/-- The `supportedTrigger` list of `ValidateRequiredProperties`. -/
def supportedTrigger : List String :=
  ["http", "bucket"]

/-- The `supportedIngressSettings` list of `ValidateRequiredProperties`. -/
def supportedIngressSettings : List String :=
  ["all", "internal-only"]

/-- Message of the runtime violation (`fmt.Errorf` in params.go). -/
def runtimeErrMsg (p : Params) : String :=
  "Runtime " ++ p.runtime ++ " is not supported; set it to " ++
    String.intercalate ", " supportedRuntimes

/-- Message of the memory violation (`fmt.Errorf` in params.go). -/
def memoryErrMsg (p : Params) : String :=
  "Memory " ++ p.memory ++ " is not supported; set it to " ++
    String.intercalate ", " supportedMemory

/-- Message of the trigger violation (`fmt.Errorf` in params.go). -/
def triggerErrMsg (p : Params) : String :=
  "Trigger " ++ p.trigger ++ " is not supported; set it to " ++
    String.intercalate ", " supportedTrigger

/-- Message of the trigger-value violation (`fmt.Errorf` in params.go). -/
def triggerValueErrMsg : String :=
  "TriggerValue is required when Trigger is bucket; set TriggerValue as well"

/-- Message of the timeout violation.  The Go source interpolates
`p.Memory` (not the timeout value) into this message; the embedding is
faithful to that. -/
def timeoutErrMsg (p : Params) : String :=
  "Timeout " ++ p.memory ++ " is not supported; set it between 0 and 540 seconds"

/-- Message of the ingress-settings violation (`fmt.Errorf` in params.go). -/
def ingressErrMsg (p : Params) : String :=
  "IngressSettings " ++ p.ingressSettings ++ " is not supported; set it to " ++
    String.intercalate ", " supportedIngressSettings

/-- Method `ValidateRequiredProperties` of params.go: returns
`(len(errors) == 0, errors, warnings)`.  Each failed check appends one
error to the list, in source order; `warnings` stays empty. -/
def Params.ValidateRequiredProperties (p : Params) :
    Bool × List String × List String :=
  let errors : List String := []
  let warnings : List String := []
  let errors := if ¬ inStringArray p.runtime supportedRuntimes = true
    then errors ++ [runtimeErrMsg p] else errors
  let errors := if ¬ inStringArray p.memory supportedMemory = true
    then errors ++ [memoryErrMsg p] else errors
  let errors := if ¬ inStringArray p.trigger supportedTrigger = true
    then errors ++ [triggerErrMsg p] else errors
  let errors := if p.trigger = "bucket" ∧ p.triggerValue = ""
    then errors ++ [triggerValueErrMsg] else errors
  let errors := if p.timeoutSeconds ≤ 0 ∨ p.timeoutSeconds > 540
    then errors ++ [timeoutErrMsg p] else errors
  let errors := if ¬ inStringArray p.ingressSettings supportedIngressSettings = true
    then errors ++ [ingressErrMsg p] else errors
  (errors.length == 0, errors, warnings)

/-- The violation list of `ValidateRequiredProperties`, written as the
concatenation of one independent sublist per check: each failing check
contributes exactly its own violation, and no check is skipped. -/
def violations (p : Params) : List String :=
  (if ¬ inStringArray p.runtime supportedRuntimes = true then [runtimeErrMsg p] else []) ++
  (if ¬ inStringArray p.memory supportedMemory = true then [memoryErrMsg p] else []) ++
  (if ¬ inStringArray p.trigger supportedTrigger = true then [triggerErrMsg p] else []) ++
  (if p.trigger = "bucket" ∧ p.triggerValue = "" then [triggerValueErrMsg] else []) ++
  (if p.timeoutSeconds ≤ 0 ∨ p.timeoutSeconds > 540 then [timeoutErrMsg p] else []) ++
  (if ¬ inStringArray p.ingressSettings supportedIngressSettings = true
    then [ingressErrMsg p] else [])

/-- A `Params` value with every string field empty, `dryRun = false`
and `timeoutSeconds = 0`: the "empty ParameterSet" of the spec's
concrete scenarios. -/
def emptyParams : Params :=
  { dryRun := false, app := "", runtime := "", trigger := "", triggerValue := "",
    memory := "", serviceAccount := "", source := "", ingressSettings := "",
    timeoutSeconds := 0 }

/-- The ParameterSet of the spec's concrete scenario 1: runtime go111,
memory 256MB, trigger http, timeout 60, ingress-settings all. -/
def scenario1Params : Params :=
  { emptyParams with runtime := "go111", memory := "256MB", trigger := "http",
                     timeoutSeconds := 60, ingressSettings := "all" }

theorem defaultApp_eq (p : Params) (g a : String) :
    defaultApp p g a =
      { p with app := if p.app = "" then (if a ≠ "" then a else if g ≠ "" then g else "")
                      else p.app } := by
  obtain ⟨d, ap, rt, tg, tv, mem, sa, src, ing, ts⟩ := p
  unfold defaultApp
  by_cases h1 : ap = "" <;> by_cases h2 : a = "" <;> by_cases h3 : g = "" <;>
    simp_all

theorem defaultTrigger_eq (p : Params) :
    defaultTrigger p = { p with trigger := if p.trigger = "" then "http" else p.trigger } := by
  obtain ⟨d, ap, rt, tg, tv, mem, sa, src, ing, ts⟩ := p
  unfold defaultTrigger; split_ifs <;> simp_all

theorem defaultMemory_eq (p : Params) :
    defaultMemory p = { p with memory := if p.memory = "" then "256MB" else p.memory } := by
  obtain ⟨d, ap, rt, tg, tv, mem, sa, src, ing, ts⟩ := p
  unfold defaultMemory; split_ifs <;> simp_all

theorem defaultSource_eq (p : Params) :
    defaultSource p = { p with source := if p.source = "" then "." else p.source } := by
  obtain ⟨d, ap, rt, tg, tv, mem, sa, src, ing, ts⟩ := p
  unfold defaultSource; split_ifs <;> simp_all

theorem defaultTimeout_eq (p : Params) :
    defaultTimeout p =
      { p with timeoutSeconds := if p.timeoutSeconds ≤ 0 then 60 else p.timeoutSeconds } := by
  obtain ⟨d, ap, rt, tg, tv, mem, sa, src, ing, ts⟩ := p
  unfold defaultTimeout; split_ifs <;> simp_all

theorem defaultIngress_eq (p : Params) :
    defaultIngress p =
      { p with ingressSettings := if p.ingressSettings = "" then "all"
                                  else p.ingressSettings } := by
  obtain ⟨d, ap, rt, tg, tv, mem, sa, src, ing, ts⟩ := p
  unfold defaultIngress; split_ifs <;> simp_all

/-- Master characterization of `SetDefaults`: the result is the input
record with each defaultable field replaced by its conditional
default. -/
theorem SetDefaults_eq (p : Params) (g a b r ac : String) (l : List (String × String)) :
    p.SetDefaults g a b r ac l =
      { p with
        app := if p.app = "" then (if a ≠ "" then a else if g ≠ "" then g else "")
               else p.app,
        trigger := if p.trigger = "" then "http" else p.trigger,
        memory := if p.memory = "" then "256MB" else p.memory,
        source := if p.source = "" then "." else p.source,
        timeoutSeconds := if p.timeoutSeconds ≤ 0 then 60 else p.timeoutSeconds,
        ingressSettings := if p.ingressSettings = "" then "all" else p.ingressSettings } := by
  unfold Params.SetDefaults
  rw [defaultApp_eq, defaultTrigger_eq, defaultMemory_eq, defaultSource_eq,
      defaultTimeout_eq, defaultIngress_eq]

/-- Characterization of `ValidateRequiredProperties` through the
per-check concatenation `violations`. -/
theorem ValidateRequiredProperties_eq (p : Params) :
    p.ValidateRequiredProperties = ((violations p).length == 0, violations p, []) := by
  unfold Params.ValidateRequiredProperties violations
  split_ifs <;> rfl

/-- Violation list of `ValidateRequiredProperties` equals the
per-check concatenation. -/
theorem validate_errors_eq (p : Params) :
    p.ValidateRequiredProperties.2.1 = violations p := by
  rw [ValidateRequiredProperties_eq]

/-- The ok flag of `ValidateRequiredProperties` is true exactly when
the violation list is empty. -/
theorem validate_ok_iff (p : Params) :
    p.ValidateRequiredProperties.1 = true ↔ p.ValidateRequiredProperties.2.1 = [] := by
  rw [ValidateRequiredProperties_eq]
  simp [List.length_eq_zero]

/-- C1: if `appName` is non-empty before `SetDefaults` it is unchanged
afterwards; if it is empty, afterwards it equals `appLabel` when
`appLabel` is non-empty, else `gitName` when `gitName` is non-empty,
else it remains empty. -/
theorem claim_C1_app_defaulting (p : Params) (g a b r ac : String)
    (l : List (String × String)) :
    (p.app ≠ "" → (p.SetDefaults g a b r ac l).app = p.app) ∧
    (p.app = "" →
      (p.SetDefaults g a b r ac l).app =
        if a ≠ "" then a else if g ≠ "" then g else "") := by
  rw [SetDefaults_eq]
  constructor
  · intro h; simp [h]
  · intro h; simp [h]

theorem claim_C1_app_defaulting_witness :
    ((emptyParams.SetDefaults "mygitrepo" "" "" "" "" []).app = "mygitrepo") ∧
    ((({ emptyParams with app := "explicit" } : Params).SetDefaults
        "g" "lbl" "" "" "" []).app = "explicit") := by
  constructor
  · have h := (claim_C1_app_defaulting emptyParams "mygitrepo" "" "" "" "" []).2 rfl
    simpa using h
  · exact (claim_C1_app_defaulting
      { emptyParams with app := "explicit" } "g" "lbl" "" "" "" []).1 (by decide)

/-- C2: the ok flag of `ValidateRequiredProperties` is true iff the
violation list is empty; the violation list is the concatenation of
one independent sublist per check (all violations collected, no
short-circuiting); the concrete scenario-1 input validates with zero
errors. -/
theorem claim_C2_validate_collects (p : Params) :
    (p.ValidateRequiredProperties.1 = true ↔ p.ValidateRequiredProperties.2.1 = []) ∧
    p.ValidateRequiredProperties.2.1 = violations p ∧
    scenario1Params.ValidateRequiredProperties = (true, [], []) := by
  refine ⟨?_, ?_, by decide⟩
  · rw [ValidateRequiredProperties_eq]
    simp [List.length_eq_zero]
  · rw [ValidateRequiredProperties_eq]

/-- C3: on a ParameterSet whose trigger, memory, source and
ingress-settings are empty and whose timeout is ≤ 0, `SetDefaults`
produces trigger http, memory 256MB, source ".", timeout 60 and
ingress-settings all; with empty app and appLabel and non-empty
gitName the app becomes gitName. -/
theorem claim_C3_empty_defaults (p : Params) (g a b r ac : String)
    (l : List (String × String))
    (ht : p.trigger = "") (hm : p.memory = "") (hs : p.source = "")
    (hi : p.ingressSettings = "") (hts : p.timeoutSeconds ≤ 0) :
    (p.SetDefaults g a b r ac l).trigger = "http" ∧
    (p.SetDefaults g a b r ac l).memory = "256MB" ∧
    (p.SetDefaults g a b r ac l).source = "." ∧
    (p.SetDefaults g a b r ac l).timeoutSeconds = 60 ∧
    (p.SetDefaults g a b r ac l).ingressSettings = "all" ∧
    (p.app = "" → a = "" → g ≠ "" → (p.SetDefaults g a b r ac l).app = g) := by
  rw [SetDefaults_eq]
  refine ⟨by simp [ht], by simp [hm], by simp [hs], by simp [hts], by simp [hi], ?_⟩
  intro h1 h2 h3
  simp [h1, h2, h3]

theorem claim_C3_empty_defaults_witness :
    (emptyParams.SetDefaults "mygitrepo" "" "" "" "" []).trigger = "http" ∧
    (emptyParams.SetDefaults "mygitrepo" "" "" "" "" []).memory = "256MB" ∧
    (emptyParams.SetDefaults "mygitrepo" "" "" "" "" []).source = "." ∧
    (emptyParams.SetDefaults "mygitrepo" "" "" "" "" []).timeoutSeconds = 60 ∧
    (emptyParams.SetDefaults "mygitrepo" "" "" "" "" []).ingressSettings = "all" ∧
    (emptyParams.SetDefaults "mygitrepo" "" "" "" "" []).app = "mygitrepo" := by
  have h := claim_C3_empty_defaults emptyParams "mygitrepo" "" "" "" "" []
    rfl rfl rfl rfl (by decide)
  exact ⟨h.1, h.2.1, h.2.2.1, h.2.2.2.1, h.2.2.2.2.1,
    h.2.2.2.2.2 rfl rfl (by decide)⟩

/-- C4: defaults never overwrite explicit input: each of app, trigger,
memory, source and ingress-settings that is non-empty before
`SetDefaults` keeps its value, and a strictly positive timeout is
unchanged. -/
theorem claim_C4_no_overwrite (p : Params) (g a b r ac : String)
    (l : List (String × String)) :
    (p.app ≠ "" → (p.SetDefaults g a b r ac l).app = p.app) ∧
    (p.trigger ≠ "" → (p.SetDefaults g a b r ac l).trigger = p.trigger) ∧
    (p.memory ≠ "" → (p.SetDefaults g a b r ac l).memory = p.memory) ∧
    (p.source ≠ "" → (p.SetDefaults g a b r ac l).source = p.source) ∧
    (p.ingressSettings ≠ "" →
      (p.SetDefaults g a b r ac l).ingressSettings = p.ingressSettings) ∧
    (0 < p.timeoutSeconds →
      (p.SetDefaults g a b r ac l).timeoutSeconds = p.timeoutSeconds) := by
  rw [SetDefaults_eq]
  refine ⟨fun h => by simp [h], fun h => by simp [h], fun h => by simp [h],
    fun h => by simp [h], fun h => by simp [h], fun h => ?_⟩
  have hn : ¬ p.timeoutSeconds ≤ 0 := by omega
  simp [hn]

theorem claim_C4_no_overwrite_witness :
    (scenario1Params.SetDefaults "g" "a" "b" "r" "ac" []).trigger = "http" ∧
    (scenario1Params.SetDefaults "g" "a" "b" "r" "ac" []).memory = "256MB" ∧
    (scenario1Params.SetDefaults "g" "a" "b" "r" "ac" []).ingressSettings = "all" ∧
    (scenario1Params.SetDefaults "g" "a" "b" "r" "ac" []).timeoutSeconds = 60 := by
  have h := claim_C4_no_overwrite scenario1Params "g" "a" "b" "r" "ac" []
  exact ⟨h.2.1 (by decide), h.2.2.1 (by decide), h.2.2.2.2.1 (by decide),
    h.2.2.2.2.2 (by decide)⟩

/-- C5: `SetDefaults` is idempotent for fixed arguments: applying it
twice yields the same ParameterSet as applying it once. -/
theorem claim_C5_idempotent (p : Params) (g a b r ac : String)
    (l : List (String × String)) :
    (p.SetDefaults g a b r ac l).SetDefaults g a b r ac l =
      p.SetDefaults g a b r ac l := by
  rw [SetDefaults_eq p, SetDefaults_eq]
  simp only [Params.mk.injEq]
  refine ⟨trivial, ?_, trivial, ?_, trivial, ?_, trivial, ?_, ?_, ?_⟩
  · by_cases h1 : p.app = "" <;> by_cases h2 : a = "" <;> by_cases h3 : g = "" <;>
      simp_all
  · split_ifs <;> simp_all
  · split_ifs <;> simp_all
  · split_ifs <;> simp_all
  · split_ifs <;> simp_all
  · split_ifs <;> simp_all

/-- The ok flag of `ValidateRequiredProperties` is false exactly when
the per-check violation list is non-empty. -/
theorem validate_ok_false_iff (p : Params) :
    p.ValidateRequiredProperties.1 = false ↔ violations p ≠ [] := by
  rw [ValidateRequiredProperties_eq]
  simp [List.length_eq_zero]

/-- Any member of the per-check violation list appears in the returned
error list and forces the ok flag to false. -/
theorem validate_mem (p : Params) (m : String) (h : m ∈ violations p) :
    p.ValidateRequiredProperties.1 = false ∧ m ∈ p.ValidateRequiredProperties.2.1 := by
  constructor
  · exact (validate_ok_false_iff p).mpr (List.ne_nil_of_mem h)
  · rw [validate_errors_eq]; exact h

/-- The per-check violation list is empty exactly when every check
passes. -/
theorem violations_empty_iff (p : Params) :
    violations p = [] ↔
      (inStringArray p.runtime supportedRuntimes = true ∧
       inStringArray p.memory supportedMemory = true ∧
       inStringArray p.trigger supportedTrigger = true ∧
       ¬ (p.trigger = "bucket" ∧ p.triggerValue = "") ∧
       ¬ (p.timeoutSeconds ≤ 0 ∨ p.timeoutSeconds > 540) ∧
       inStringArray p.ingressSettings supportedIngressSettings = true) := by
  unfold violations
  split_ifs <;> simp_all

/-- C6: on trigger bucket with an empty triggerValue, validation fails
and reports the TriggerValue violation; on trigger bucket with a
non-empty triggerValue and every other check passing, validation
succeeds with zero errors. -/
theorem claim_C6_bucket_trigger (p : Params) :
    (p.trigger = "bucket" → p.triggerValue = "" →
      p.ValidateRequiredProperties.1 = false ∧
      "TriggerValue is required when Trigger is bucket; set TriggerValue as well"
        ∈ p.ValidateRequiredProperties.2.1) ∧
    (p.trigger = "bucket" → p.triggerValue ≠ "" →
      inStringArray p.runtime supportedRuntimes = true →
      inStringArray p.memory supportedMemory = true →
      0 < p.timeoutSeconds → p.timeoutSeconds ≤ 540 →
      inStringArray p.ingressSettings supportedIngressSettings = true →
      p.ValidateRequiredProperties.1 = true ∧
      p.ValidateRequiredProperties.2.1 = []) := by
  constructor
  · intro h1 h2
    have hmem : triggerValueErrMsg ∈ violations p := by
      simp [violations, h1, h2]
    exact validate_mem p triggerValueErrMsg hmem
  · intro h1 h2 hr hm ht1 ht2 hi
    have htr : inStringArray p.trigger supportedTrigger = true := by
      rw [h1]; decide
    have hto : ¬ (p.timeoutSeconds ≤ 0 ∨ p.timeoutSeconds > 540) := by omega
    have hv : violations p = [] :=
      (violations_empty_iff p).mpr ⟨hr, hm, htr, fun hc => h2 hc.2, hto, hi⟩
    exact ⟨(validate_ok_iff p).mpr ((validate_errors_eq p) ▸ hv),
      (validate_errors_eq p) ▸ hv⟩

theorem claim_C6_bucket_trigger_witness :
    (({ scenario1Params with trigger := "bucket" } :
        Params).ValidateRequiredProperties.1 = false ∧
      "TriggerValue is required when Trigger is bucket; set TriggerValue as well"
        ∈ ({ scenario1Params with trigger := "bucket" } :
            Params).ValidateRequiredProperties.2.1) ∧
    (({ scenario1Params with trigger := "bucket", triggerValue := "mybucket" } :
        Params).ValidateRequiredProperties.1 = true ∧
      ({ scenario1Params with trigger := "bucket", triggerValue := "mybucket" } :
        Params).ValidateRequiredProperties.2.1 = []) := by
  constructor
  · exact (claim_C6_bucket_trigger
      { scenario1Params with trigger := "bucket" }).1 rfl rfl
  · exact (claim_C6_bucket_trigger
      { scenario1Params with trigger := "bucket", triggerValue := "mybucket" }).2
      rfl (by decide) (by decide) (by decide) (by decide) (by decide) (by decide)

/-- C7: a timeout outside (0, 540] always yields a violation whose
message references the 0-to-540 bound and makes validation fail; when
every other check passes, validation succeeds exactly for timeouts in
(0, 540] (540 accepted, 541 rejected). -/
theorem claim_C7_timeout_domain (p : Params) :
    (¬ (0 < p.timeoutSeconds ∧ p.timeoutSeconds ≤ 540) →
      p.ValidateRequiredProperties.1 = false ∧
      ("Timeout " ++ p.memory ++ " is not supported; set it between 0 and 540 seconds")
        ∈ p.ValidateRequiredProperties.2.1) ∧
    (inStringArray p.runtime supportedRuntimes = true →
      inStringArray p.memory supportedMemory = true →
      inStringArray p.trigger supportedTrigger = true →
      ¬ (p.trigger = "bucket" ∧ p.triggerValue = "") →
      inStringArray p.ingressSettings supportedIngressSettings = true →
      (p.ValidateRequiredProperties.1 = true ↔
        0 < p.timeoutSeconds ∧ p.timeoutSeconds ≤ 540)) := by
  constructor
  · intro hbad
    have hc : p.timeoutSeconds ≤ 0 ∨ p.timeoutSeconds > 540 := by omega
    have hmem : timeoutErrMsg p ∈ violations p := by
      simp [violations, hc]
    exact validate_mem p (timeoutErrMsg p) hmem
  · intro hr hm htr htv hi
    rw [validate_ok_iff, validate_errors_eq, violations_empty_iff]
    constructor
    · intro h
      have := h.2.2.2.2.1
      omega
    · intro h
      exact ⟨hr, hm, htr, htv, by omega, hi⟩

theorem claim_C7_timeout_domain_witness :
    (({ scenario1Params with timeoutSeconds := 541 } :
        Params).ValidateRequiredProperties.1 = false ∧
      ("Timeout " ++ ({ scenario1Params with timeoutSeconds := 541 } : Params).memory ++
        " is not supported; set it between 0 and 540 seconds")
        ∈ ({ scenario1Params with timeoutSeconds := 541 } :
            Params).ValidateRequiredProperties.2.1) ∧
    (({ scenario1Params with timeoutSeconds := 540 } :
        Params).ValidateRequiredProperties.1 = true) := by
  constructor
  · exact (claim_C7_timeout_domain
      { scenario1Params with timeoutSeconds := 541 }).1 (by decide)
  · exact ((claim_C7_timeout_domain
      { scenario1Params with timeoutSeconds := 540 }).2 (by decide) (by decide)
      (by decide) (by decide) (by decide)).mpr (by decide)

/-- C8: an enum field holding a value outside its closed set produces
a violation naming the field, the offending value and the full
accepted set (joined with comma separators), and validation fails. -/
theorem claim_C8_enum_violations (p : Params) :
    (¬ inStringArray p.runtime supportedRuntimes = true →
      p.ValidateRequiredProperties.1 = false ∧
      ("Runtime " ++ p.runtime ++ " is not supported; set it to " ++
        String.intercalate ", " supportedRuntimes) ∈ p.ValidateRequiredProperties.2.1) ∧
    (¬ inStringArray p.memory supportedMemory = true →
      p.ValidateRequiredProperties.1 = false ∧
      ("Memory " ++ p.memory ++ " is not supported; set it to " ++
        String.intercalate ", " supportedMemory) ∈ p.ValidateRequiredProperties.2.1) ∧
    (¬ inStringArray p.trigger supportedTrigger = true →
      p.ValidateRequiredProperties.1 = false ∧
      ("Trigger " ++ p.trigger ++ " is not supported; set it to " ++
        String.intercalate ", " supportedTrigger) ∈ p.ValidateRequiredProperties.2.1) ∧
    (¬ inStringArray p.ingressSettings supportedIngressSettings = true →
      p.ValidateRequiredProperties.1 = false ∧
      ("IngressSettings " ++ p.ingressSettings ++ " is not supported; set it to " ++
        String.intercalate ", " supportedIngressSettings)
        ∈ p.ValidateRequiredProperties.2.1) := by
  refine ⟨fun h => ?_, fun h => ?_, fun h => ?_, fun h => ?_⟩
  · exact validate_mem p (runtimeErrMsg p) (by simp [violations, h])
  · exact validate_mem p (memoryErrMsg p) (by simp [violations, h])
  · exact validate_mem p (triggerErrMsg p) (by simp [violations, h])
  · exact validate_mem p (ingressErrMsg p) (by simp [violations, h])

theorem claim_C8_enum_violations_witness :
    ({ scenario1Params with memory := "64MB" } :
        Params).ValidateRequiredProperties.1 = false ∧
      "Memory 64MB is not supported; set it to 128MB, 256MB, 512MB, 1024MB, 2048MB"
        ∈ ({ scenario1Params with memory := "64MB" } :
            Params).ValidateRequiredProperties.2.1 :=
  (claim_C8_enum_violations { scenario1Params with memory := "64MB" }).2.1 (by decide)

/-- C9: `SetDefaults` never assigns the runtime field, and a
ParameterSet whose runtime is empty fails validation because the empty
string is not a supported runtime. -/
theorem claim_C9_runtime_frame (p : Params) (g a b r ac : String)
    (l : List (String × String)) :
    (p.SetDefaults g a b r ac l).runtime = p.runtime ∧
    (p.runtime = "" → p.ValidateRequiredProperties.1 = false) := by
  constructor
  · rw [SetDefaults_eq]
  · intro h
    have hns : ¬ inStringArray p.runtime supportedRuntimes = true := by
      rw [h]; decide
    exact (validate_mem p (runtimeErrMsg p) (by simp [violations, hns])).1

theorem claim_C9_runtime_frame_witness :
    (emptyParams.SetDefaults "g" "" "" "" "" []).runtime = "" ∧
    emptyParams.ValidateRequiredProperties.1 = false :=
  ⟨(claim_C9_runtime_frame emptyParams "g" "" "" "" "" []).1,
   (claim_C9_runtime_frame emptyParams "g" "" "" "" "" []).2 rfl⟩

/-- C10: the result of `SetDefaults` does not depend on the
buildVersion, releaseName, releaseAction and estafetteLabels
arguments: two runs differing only in those four arguments produce
identical ParameterSets. -/
theorem claim_C10_noninterference (p : Params) (g a b1 r1 ac1 b2 r2 ac2 : String)
    (l1 l2 : List (String × String)) :
    p.SetDefaults g a b1 r1 ac1 l1 = p.SetDefaults g a b2 r2 ac2 l2 := rfl
